import Mathlib

/-!
Verification development for a BitTorrent tracker (`src/tracker.rs` of the
repository under review).  The Rust source is shallowly embedded below:

* bytes are modelled as `Nat` (the embedding never depends on the 0..255
  range), byte strings as `List Nat`;
* the bencode wire form of a byte string `b` is the length-prefixed
  `"<len>:<bytes>"` produced by `serialize_bytes`;
* the 20-byte newtypes `InfoHash` / `PeerId` produced by the
  `newtype_bytearray!` macro are the subtype of lists of length 20;
* the shared mutable tracker (`Mutex<HashMap<InfoHash, HashSet<Peer>>>` plus
  the `AtomicU32` completion counter) is explicit state threaded through the
  handlers; a `HashSet` is modelled as a duplicate-free `List` with
  `List.insert` as `HashSet::insert`;
* `rand`-driven sampling (`IteratorRandom::choose_multiple`) is a function
  parameter `sel`; the contract every real execution of `choose_multiple`
  satisfies is `IsSample` below;
* Rust panics (`unimplemented!()`, `Option::unwrap` on `None`) are the
  `Outcome.panicked` constructor.  The constructor carries the tracker state
  at the moment of the panic: the registry is shared behind a `Mutex`, so a
  mutation completed before the panic stays visible to later requests.
-/

namespace Bittorrent

/-! ### Decimal digits of a length prefix

`asciiOfNat n` is the ASCII decimal rendering of `n` (the `{}` of
`format!`-style printing used by serde_bencode when it emits `<len>:`).
It is written with structural fuel so that it reduces by `rfl`/`decide`. -/

def isDigitByte (c : Nat) : Bool := 48 ≤ c && c ≤ 57

def asciiAux : Nat → Nat → List Nat
  | 0, _ => []
  | fuel + 1, n => if n = 0 then [] else asciiAux fuel (n / 10) ++ [n % 10 + 48]

def asciiOfNat (n : Nat) : List Nat :=
  if n = 0 then [48] else asciiAux n n

/-- Value of a big-endian list of ASCII digits (the accumulator loop a
length-prefix reader performs). -/
def digitsVal (ds : List Nat) : Nat :=
  ds.foldl (fun a c => a * 10 + (c - 48)) 0

theorem digitsVal_snoc (l : List Nat) (c : Nat) :
    digitsVal (l ++ [c]) = digitsVal l * 10 + (c - 48) := by
  simp [digitsVal, List.foldl_append]

theorem isDigitByte_mem_asciiAux :
    ∀ (fuel n c : Nat), c ∈ asciiAux fuel n → isDigitByte c = true := by
  intro fuel
  induction fuel with
  | zero => intro n c h; simp [asciiAux] at h
  | succ f ih =>
    intro n c h
    by_cases hn : n = 0
    · simp [asciiAux, hn] at h
    · simp only [asciiAux, hn, if_false, List.mem_append, List.mem_singleton] at h
      rcases h with h | h
      · exact ih _ _ h
      · subst h
        have : n % 10 < 10 := Nat.mod_lt _ (by omega)
        simp only [isDigitByte, Bool.and_eq_true, decide_eq_true_eq]
        omega

theorem isDigitByte_mem_asciiOfNat (n c : Nat) (h : c ∈ asciiOfNat n) :
    isDigitByte c = true := by
  by_cases hn : n = 0
  · simp [asciiOfNat, hn] at h
    subst h; decide
  · simp only [asciiOfNat, hn, if_false] at h
    exact isDigitByte_mem_asciiAux _ _ _ h

theorem asciiOfNat_ne_nil (n : Nat) : asciiOfNat n ≠ [] := by
  by_cases hn : n = 0
  · simp [asciiOfNat, hn]
  · cases n with
    | zero => simp at hn
    | succ m =>
      simp only [asciiOfNat, hn, if_false, asciiAux, Nat.succ_ne_zero, if_false]
      simp

theorem digitsVal_asciiAux : ∀ (fuel n : Nat), n ≤ fuel → digitsVal (asciiAux fuel n) = n := by
  intro fuel
  induction fuel with
  | zero => intro n h; interval_cases n; simp [asciiAux, digitsVal]
  | succ f ih =>
    intro n h
    by_cases hn : n = 0
    · simp [asciiAux, hn, digitsVal]
    · have hdiv : n / 10 ≤ f := by
        have : n / 10 < n := Nat.div_lt_self (by omega) (by omega)
        omega
      simp only [asciiAux, hn, if_false]
      rw [digitsVal_snoc, ih _ hdiv]
      omega

theorem digitsVal_asciiOfNat (n : Nat) : digitsVal (asciiOfNat n) = n := by
  by_cases hn : n = 0
  · simp [asciiOfNat, hn, digitsVal]
  · simp only [asciiOfNat, hn, if_false]
    exact digitsVal_asciiAux n n le_rfl

/-! ### The bencode byte-string codec (`newtype_bytearray!` in tracker.rs)

`serialize_bytes` renders a byte string as `<len>:<raw bytes>`; the
deserializer reads the decimal prefix, the `:` (byte 58) and exactly that
many payload bytes, then hands the payload to `BytesVisitor`, which accepts
iff the byte count equals the fixed newtype length and otherwise reports
`invalid_length` with the observed count. -/

def bencodeBytes (b : List Nat) : List Nat :=
  asciiOfNat b.length ++ 58 :: b

/-- Splits a leading run of ASCII digits off a byte string. -/
def splitDigits : List Nat → List Nat × List Nat
  | [] => ([], [])
  | c :: rest =>
    if isDigitByte c then
      let p := splitDigits rest
      (c :: p.1, p.2)
    else ([], c :: rest)

theorem splitDigits_append (ds : List Nat) (b : List Nat)
    (h : ∀ c ∈ ds, isDigitByte c = true) :
    splitDigits (ds ++ 58 :: b) = (ds, 58 :: b) := by
  induction ds with
  | nil => simp [splitDigits, isDigitByte]
  | cons c rest ih =>
    have hc : isDigitByte c = true := h c (List.mem_cons_self _ _)
    have ih2 := ih (fun d hd => h d (List.mem_cons_of_mem _ hd))
    simp only [List.cons_append, splitDigits, hc, if_true, List.append_eq, ih2]

def decodeBencodeBytes (w : List Nat) : Option (List Nat) :=
  let p := splitDigits w
  if p.1 = [] then none
  else
    match p.2 with
    | 58 :: tail => if tail.length = digitsVal p.1 then some tail else none
    | _ => none

theorem decodeBencodeBytes_bencodeBytes (b : List Nat) :
    decodeBencodeBytes (bencodeBytes b) = some b := by
  unfold bencodeBytes decodeBencodeBytes
  rw [splitDigits_append _ _ (fun c hc => isDigitByte_mem_asciiOfNat _ _ hc)]
  simp [asciiOfNat_ne_nil, digitsVal_asciiOfNat]

/-- serde decode errors observable through the newtype deserializer:
`invalid_length(observed, expecting)` from `BytesVisitor`, or a malformed
wire value rejected before the visitor runs. -/
inductive DecodeError where
  | invalidLength (observed : Nat) (expecting : String)
  | malformed
deriving DecidableEq

/-- The `expecting` text of `BytesVisitor` for a fixed length. -/
def expectingMsg (len : Nat) : String :=
  "a byte array of length " ++ Nat.repr len

/-- `[u8; len]::try_from` inside `BytesVisitor`: succeed iff the payload has
exactly the fixed length, otherwise `invalid_length` with the observed one. -/
def decodeFixedBytes (len : Nat) (w : List Nat) :
    Except DecodeError { l : List Nat // l.length = len } :=
  match decodeBencodeBytes w with
  | none => .error .malformed
  | some v =>
    if h : v.length = len then .ok ⟨v, h⟩
    else .error (.invalidLength v.length (expectingMsg len))

/-! ### Data model (tracker.rs) -/

/-- 20-byte identifiers produced by `newtype_bytearray!(_, 20)`. -/
def Bytes20 := { l : List Nat // l.length = 20 }

instance : DecidableEq Bytes20 := fun a b =>
  if h : a.val = b.val then .isTrue (Subtype.ext h)
  else .isFalse (fun hh => h (congrArg Subtype.val hh))

abbrev InfoHash := Bytes20
abbrev PeerId := Bytes20

def serializeFixedBytes (b : Bytes20) : List Nat := bencodeBytes b.val

inductive IpAddr where
  | v4 (a b c d : Nat)
  | v6 (segments : List Nat)
deriving DecidableEq

structure Peer where
  peer_id : PeerId
  ip : IpAddr
  port : Nat
deriving DecidableEq

inductive ClientEvent where
  | started
  | stopped
  | completed
deriving DecidableEq

structure TrackerError where
  failure : String
deriving DecidableEq

structure TrackerResponse where
  interval : Nat
  peers : List Peer
deriving DecidableEq

abbrev TrackerResult := Except TrackerError TrackerResponse

structure TrackerRequest where
  info_hash : InfoHash
  peer_id : PeerId
  ip : Option IpAddr
  port : Nat
  uploaded : Nat
  downloaded : Nat
  left : Nat
  event : Option ClientEvent
  numwant : Option Nat
deriving DecidableEq

/-- Command-line options (`Opt` in main.rs).  The tracker stores a copy but
none of its request handling reads either field. -/
structure Opt where
  root : String
  peers : Nat
deriving DecidableEq

/-- The shared mutable state of `Tracker`: the info-hash → peer-set map and
the single (tracker-wide) `complete_count` counter.  An absent `HashMap`
entry and an entry holding the empty set are observationally identical to
every operation of the source, so the map is a total function with default
`[]`. -/
structure TrackerState where
  torrents : Bytes20 → List Peer
  complete_count : Nat

def initState : TrackerState := ⟨fun _ => [], 0⟩

inductive Method where
  | GET
  | POST
  | PUT
  | DELETE
  | HEAD
deriving DecidableEq

/-- Result of one request: either a returned `TrackerResult` or a Rust
panic, in both cases together with the registry state left behind. -/
inductive Outcome where
  | done (r : TrackerResult) (s : TrackerState)
  | panicked (msg : String) (s : TrackerState)

def Outcome.state : Outcome → TrackerState
  | .done _ s => s
  | .panicked _ s => s

def Outcome.panicMsg : Outcome → Option String
  | .done _ _ => none
  | .panicked m _ => some m

def notImplementedMsg : String := "not implemented"

def unwrapNoneMsg : String := "called `Option::unwrap()` on a `None` value"

/-! ### Query-string decoding (`TrackerRequest::from_query_string`)

serde_urlencoded hands the derived `Deserialize` impl the URL-decoded
`key=value` pairs in query order; each value is decoded as it is visited,
the first failing pair aborts with its error, unknown keys are ignored, a
repeated key is a `duplicate field` error, and after the last pair any
still-missing required field is a `missing field` error (checked in struct
declaration order).  A query is modelled as the list of decoded pairs. -/

abbrev Query := List (String × List Nat)

def strBytes (s : String) : List Nat := s.toList.map Char.toNat

/-- serde's `Error::invalid_length(n, &BytesVisitor)` rendered through
serde_urlencoded: the message carries the observed length and the
visitor's `expecting` text, but not the name of the offending field. -/
def invalidLengthMsg (n : Nat) : String :=
  "invalid length " ++ Nat.repr n ++ ", expected a byte array of length 20"

def dupFieldMsg (f : String) : String := "duplicate field `" ++ f ++ "`"

def missingFieldMsg (f : String) : String := "missing field `" ++ f ++ "`"

/-- `BytesVisitor` on the urlencoded path (`visit_str` → `try_from`):
succeed iff the value is exactly 20 bytes, else report the observed
length. -/
def bytesVisitor20 (v : List Nat) : Except Nat Bytes20 :=
  if h : v.length = 20 then .ok ⟨v, h⟩ else .error v.length

def decode20Value (v : List Nat) : Except String Bytes20 :=
  match bytesVisitor20 v with
  | .ok b => .ok b
  | .error n => .error (invalidLengthMsg n)

/-- `str::parse` for an unsigned integer type with exclusive bound
`bound` (`2^32` for u32, `2^16` for u16, `2^8` for an IPv4 octet). -/
def parseNatValue (bound : Nat) (v : List Nat) : Except String Nat :=
  if v = [] then .error "cannot parse integer from empty string"
  else if v.all isDigitByte then
    if digitsVal v < bound then .ok (digitsVal v)
    else .error "number too large to fit in target type"
  else .error "invalid digit found in string"

/-- `IpAddr::from_str` restricted to the dotted-quad form the announce
claims exercise; anything else is a parse failure. -/
def parseIpValue (v : List Nat) : Except String IpAddr :=
  match v.splitOn 46 with
  | [a, b, c, d] =>
    match parseNatValue 256 a, parseNatValue 256 b, parseNatValue 256 c, parseNatValue 256 d with
    | .ok x, .ok y, .ok z, .ok w => .ok (.v4 x y z w)
    | _, _, _, _ => .error "invalid IP address syntax"
  | _ => .error "invalid IP address syntax"

/-- The derived `ClientEvent` deserializer (`rename_all = "lowercase"`). -/
def parseEventValue (v : List Nat) : Except String ClientEvent :=
  if v = strBytes "started" then .ok .started
  else if v = strBytes "stopped" then .ok .stopped
  else if v = strBytes "completed" then .ok .completed
  else .error "unknown variant"

structure PartialRequest where
  info_hash : Option Bytes20 := none
  peer_id : Option Bytes20 := none
  ip : Option IpAddr := none
  port : Option Nat := none
  uploaded : Option Nat := none
  downloaded : Option Nat := none
  left : Option Nat := none
  event : Option ClientEvent := none
  numwant : Option Nat := none

/-- Record a field value, rejecting a repeated key the way serde does. -/
def setOnce {α : Type} (cur : Option α) (f : String) (v : Except String α) :
    Except TrackerError (Option α) :=
  match cur with
  | some _ => .error ⟨dupFieldMsg f⟩
  | none =>
    match v with
    | .ok a => .ok (some a)
    | .error m => .error ⟨m⟩

def stepPair (acc : PartialRequest) (kv : String × List Nat) :
    Except TrackerError PartialRequest :=
  match kv.1 with
  | "info_hash" =>
    (setOnce acc.info_hash "info_hash" (decode20Value kv.2)).map
      (fun o => { acc with info_hash := o })
  | "peer_id" =>
    (setOnce acc.peer_id "peer_id" (decode20Value kv.2)).map
      (fun o => { acc with peer_id := o })
  | "ip" =>
    (setOnce acc.ip "ip" (parseIpValue kv.2)).map (fun o => { acc with ip := o })
  | "port" =>
    (setOnce acc.port "port" (parseNatValue 65536 kv.2)).map
      (fun o => { acc with port := o })
  | "uploaded" =>
    (setOnce acc.uploaded "uploaded" (parseNatValue 4294967296 kv.2)).map
      (fun o => { acc with uploaded := o })
  | "downloaded" =>
    (setOnce acc.downloaded "downloaded" (parseNatValue 4294967296 kv.2)).map
      (fun o => { acc with downloaded := o })
  | "left" =>
    (setOnce acc.left "left" (parseNatValue 4294967296 kv.2)).map
      (fun o => { acc with left := o })
  | "event" =>
    (setOnce acc.event "event" (parseEventValue kv.2)).map
      (fun o => { acc with event := o })
  | "numwant" =>
    (setOnce acc.numwant "numwant" (parseNatValue 4294967296 kv.2)).map
      (fun o => { acc with numwant := o })
  | _ => .ok acc

def finishPartial (p : PartialRequest) : Except TrackerError TrackerRequest :=
  match p.info_hash with
  | none => .error ⟨missingFieldMsg "info_hash"⟩
  | some ih =>
    match p.peer_id with
    | none => .error ⟨missingFieldMsg "peer_id"⟩
    | some pid =>
      match p.port with
      | none => .error ⟨missingFieldMsg "port"⟩
      | some port =>
        match p.uploaded with
        | none => .error ⟨missingFieldMsg "uploaded"⟩
        | some up =>
          match p.downloaded with
          | none => .error ⟨missingFieldMsg "downloaded"⟩
          | some down =>
            match p.left with
            | none => .error ⟨missingFieldMsg "left"⟩
            | some lf =>
              .ok ⟨ih, pid, p.ip, port, up, down, lf, p.event, p.numwant⟩

def TrackerRequest.from_query_string (q : Query) : Except TrackerError TrackerRequest :=
  match q.foldlM stepPair {} with
  | .error e => .error e
  | .ok p => finishPartial p

/-- `validate_request` in the source has its whole body commented out and
returns `Ok(())` unconditionally. -/
def TrackerRequest.validate_request (_ : TrackerRequest) : Except TrackerError Unit :=
  .ok ()

/-- `normalize_request`: `self.numwant = self.numwant.or(Some(50))` — a
hard-coded default, no clamping, and `Opt::peers` is never consulted. -/
def TrackerRequest.normalize_request (r : TrackerRequest) : TrackerRequest :=
  { r with numwant := r.numwant.or (some 50) }

/-! ### Swarm registry and peer selection -/

/-- A random sampler standing for one rng-driven execution of
`IteratorRandom::choose_multiple`. -/
abbrev Selector := List Peer → Nat → List Peer

/-- The contract every execution of `choose_multiple(rng, n)` over a
duplicate-free iterator satisfies: a duplicate-free selection drawn from
the source of size `min n len`. -/
def IsSample (swarm : List Peer) (n : Nat) (out : List Peer) : Prop :=
  out.Nodup ∧ (∀ p, p ∈ out → p ∈ swarm) ∧ out.length = min n swarm.length

def SampleOK (sel : Selector) : Prop :=
  ∀ l n, l.Nodup → IsSample l n (sel l n)

/-- A concrete conforming sampler (keeps the first `n` elements). -/
def selTake : Selector := fun l n => l.take n

theorem sampleOK_selTake : SampleOK selTake := by
  intro l n hl
  refine ⟨hl.sublist (List.take_sublist n l), ?_, List.length_take n l⟩
  intro p hp
  exact List.take_subset n l hp

/-- `HashSet::insert` under the torrent entry for `h`
(`entry(...).or_insert(HashSet::new()).insert(peer)`). -/
def Tracker.upsert (h : InfoHash) (p : Peer) (t : Bytes20 → List Peer) :
    Bytes20 → List Peer :=
  fun h2 => if h2 = h then (t h2).insert p else t h2

/-- `maybe_register_new_peer`.  `req.ip.unwrap()` panics (`none`) when the
query carried no `ip`; the panic fires before the insert, so the registry
is unchanged in that case. -/
def Tracker.maybe_register_new_peer (req : TrackerRequest) (s : TrackerState) :
    Option TrackerState :=
  match req.ip with
  | none => none
  | some a =>
    some { s with torrents := Tracker.upsert req.info_hash ⟨req.peer_id, a, req.port⟩ s.torrents }

/-- `get_peers`: sample `numwant.unwrap()` peers from the full peer set of
the torrent — the requesting peer is *not* excluded (the source carries a
TODO to that effect).  `none` models the `unwrap` panic on an absent
`numwant`. -/
def Tracker.get_peers (sel : Selector) (req : TrackerRequest) (s : TrackerState) :
    Option (List Peer) :=
  req.numwant.map (fun n => sel (s.torrents req.info_hash) n)

/-- Body of the `(GET, "/announce", Some(query))` arm after a successful
parse: normalize, register (may panic on a missing ip), interpret the
event (`unimplemented!()` for Started/Stopped, counter increment for
Completed), then answer with interval 1 and the sampled peers. -/
def Tracker.processAnnounce (sel : Selector) (req0 : TrackerRequest) (s : TrackerState) :
    Outcome :=
  let req := req0.normalize_request
  match Tracker.maybe_register_new_peer req s with
  | none => .panicked unwrapNoneMsg s
  | some s1 =>
    match req.event with
    | some .started => .panicked notImplementedMsg s1
    | some .stopped => .panicked notImplementedMsg s1
    | some .completed =>
      let s2 : TrackerState := { s1 with complete_count := s1.complete_count + 1 }
      match Tracker.get_peers sel req s2 with
      | none => .panicked unwrapNoneMsg s2
      | some ps => .done (.ok ⟨1, ps⟩) s2
    | none =>
      match Tracker.get_peers sel req s1 with
      | none => .panicked unwrapNoneMsg s1
      | some ps => .done (.ok ⟨1, ps⟩) s1

/-- `handle_session`, dispatching on (method, path, query presence). -/
def Tracker.handle_session (sel : Selector) (s : TrackerState) (method : Method)
    (path : String) (query : Option Query) : Outcome :=
  match method, path, query with
  | .GET, "/announce", some q =>
    match TrackerRequest.from_query_string q with
    | .error e => .done (.error e) s
    | .ok req =>
      match req.validate_request with
      | .error e => .done (.error e) s
      | .ok _ => Tracker.processAnnounce sel req s
  | .GET, "/announce", none => .done (.error ⟨"Invalid request: no query string."⟩) s
  | .GET, _, _ => .done (.error ⟨"Unrecognized path, try '/announce'."⟩) s
  | _, _, _ => .done (.error ⟨"Invalid request type: client request was not an HTTP GET."⟩) s

/-! ### Helper lemmas about the pipeline -/

theorem normalize_info_hash (r : TrackerRequest) :
    r.normalize_request.info_hash = r.info_hash := rfl

theorem normalize_peer_id (r : TrackerRequest) :
    r.normalize_request.peer_id = r.peer_id := rfl

theorem normalize_ip (r : TrackerRequest) : r.normalize_request.ip = r.ip := rfl

theorem normalize_port (r : TrackerRequest) : r.normalize_request.port = r.port := rfl

theorem normalize_event (r : TrackerRequest) : r.normalize_request.event = r.event := rfl

theorem normalize_numwant (r : TrackerRequest) :
    r.normalize_request.numwant = r.numwant.or (some 50) := rfl

theorem foldlM_stepPair_cons_ok {acc acc' : PartialRequest} {kv : String × List Nat}
    (h : stepPair acc kv = .ok acc') (l : Query) :
    List.foldlM stepPair acc (kv :: l) = List.foldlM stepPair acc' l := by
  rw [List.foldlM_cons, h]; rfl

theorem foldlM_stepPair_cons_err {acc : PartialRequest} {e : TrackerError}
    {kv : String × List Nat} (h : stepPair acc kv = .error e) (l : Query) :
    List.foldlM stepPair acc (kv :: l) = .error e := by
  rw [List.foldlM_cons, h]; rfl

/-- The registry mutation every announce branch performs before it answers
(or panics at `unimplemented!()`): once the ip is present, the peer is
inserted into the announced torrent's swarm, whatever the event says. -/
theorem processAnnounce_state_torrents (sel : Selector) (r : TrackerRequest)
    (s : TrackerState) (a : IpAddr) (hip : r.ip = some a) :
    (Tracker.processAnnounce sel r s).state.torrents =
      Tracker.upsert r.info_hash ⟨r.peer_id, a, r.port⟩ s.torrents := by
  unfold Tracker.processAnnounce
  simp only [Tracker.maybe_register_new_peer, normalize_ip, hip, normalize_info_hash,
    normalize_peer_id, normalize_port]
  cases hev : r.normalize_request.event with
  | none =>
    unfold Tracker.get_peers
    cases hnw : r.normalize_request.numwant <;> simp [Outcome.state, hnw]
  | some ev =>
    cases ev with
    | started => simp [Outcome.state]
    | stopped => simp [Outcome.state]
    | completed =>
      unfold Tracker.get_peers
      cases hnw : r.normalize_request.numwant <;> simp [Outcome.state, hnw]

/-! ### Concrete fixtures used by witnesses and counterexamples -/

def hashA : InfoHash := ⟨List.replicate 20 97, by decide⟩

def hashB : InfoHash := ⟨List.replicate 20 98, by decide⟩

def pid0 : PeerId := ⟨List.replicate 20 99, by decide⟩

def ip0 : IpAddr := .v4 1 2 3 4

def peer0 : Peer := ⟨pid0, ip0, 1⟩

def reqCA : TrackerRequest := ⟨hashA, pid0, some ip0, 1, 0, 0, 0, some .completed, some 1⟩

def reqNB : TrackerRequest := ⟨hashB, pid0, some ip0, 1, 0, 0, 0, none, some 1⟩

def reqNA : TrackerRequest := ⟨hashA, pid0, some ip0, 1, 0, 0, 0, none, some 1⟩

def reqCB : TrackerRequest := ⟨hashB, pid0, some ip0, 1, 0, 0, 0, some .completed, some 1⟩

def c4s1 : TrackerState := ⟨Tracker.upsert hashA peer0 initState.torrents, 1⟩

def c4s2 : TrackerState := ⟨Tracker.upsert hashB peer0 c4s1.torrents, 1⟩

def c4t1 : TrackerState := ⟨Tracker.upsert hashA peer0 initState.torrents, 0⟩

def c4t2 : TrackerState := ⟨Tracker.upsert hashB peer0 c4t1.torrents, 1⟩

/-- A well-formed announce query that simply omits the optional `ip`. -/
def qNoIp : Query :=
  [("info_hash", strBytes "aaaaaaaaaaaaaaaaaaaa"),
   ("peer_id", strBytes "bbbbbbbbbbbbbbbbbbbb"),
   ("port", strBytes "6881"),
   ("uploaded", strBytes "0"),
   ("downloaded", strBytes "0"),
   ("left", strBytes "0")]

def qStarted : Query :=
  [("info_hash", strBytes "aaaaaaaaaaaaaaaaaaaa"),
   ("peer_id", strBytes "bbbbbbbbbbbbbbbbbbbb"),
   ("ip", strBytes "10.0.0.1"),
   ("port", strBytes "6881"),
   ("uploaded", strBytes "0"),
   ("downloaded", strBytes "0"),
   ("left", strBytes "1000"),
   ("event", strBytes "started")]

def qStopped : Query :=
  [("info_hash", strBytes "aaaaaaaaaaaaaaaaaaaa"),
   ("peer_id", strBytes "bbbbbbbbbbbbbbbbbbbb"),
   ("ip", strBytes "10.0.0.1"),
   ("port", strBytes "6881"),
   ("uploaded", strBytes "0"),
   ("downloaded", strBytes "0"),
   ("left", strBytes "1000"),
   ("event", strBytes "stopped")]

/-! ### C1 -/

/-- C1: encoding a 20-byte identifier (`InfoHash`/`PeerId` both instantiate
`newtype_bytearray!` at length 20) yields the length-prefixed raw byte
string `20:<bytes>` — visibly not bencode's list-of-integers form — and
decoding inverts it; decoding the length-prefixed form of a byte string of
any other length fails with the invalid-length error carrying the observed
length. -/
theorem C1_fixed_codec_roundtrip :
    (∀ b : Bytes20,
        serializeFixedBytes b = [50, 48, 58] ++ b.val ∧
        decodeFixedBytes 20 (serializeFixedBytes b) = .ok b) ∧
    (∀ s : List Nat, s.length ≠ 20 →
        decodeFixedBytes 20 (bencodeBytes s) =
          .error (.invalidLength s.length (expectingMsg 20))) := by
  constructor
  · intro b
    constructor
    · have h := b.property
      simp only [serializeFixedBytes, bencodeBytes, h]
      rfl
    · unfold serializeFixedBytes decodeFixedBytes
      rw [decodeBencodeBytes_bencodeBytes]
      simp [b.property]
  · intro s hs
    unfold decodeFixedBytes
    rw [decodeBencodeBytes_bencodeBytes]
    simp [hs]

def sampleId : Bytes20 := ⟨List.replicate 20 97, by decide⟩

/-- C1 witness: the round trip at a concrete identifier, and the concrete
failure on a 3-byte payload. -/
theorem C1_fixed_codec_roundtrip_witness :
    serializeFixedBytes sampleId = [50, 48, 58] ++ sampleId.val ∧
    decodeFixedBytes 20 (serializeFixedBytes sampleId) = .ok sampleId ∧
    ([97, 98, 99] : List Nat).length ≠ 20 ∧
    decodeFixedBytes 20 (bencodeBytes [97, 98, 99]) =
      .error (.invalidLength 3 (expectingMsg 20)) := by
  refine ⟨(C1_fixed_codec_roundtrip.1 sampleId).1, (C1_fixed_codec_roundtrip.1 sampleId).2,
    by decide, ?_⟩
  exact C1_fixed_codec_roundtrip.2 [97, 98, 99] (by decide)

/-! ### C2 -/

/-- C2: refuted behaviour of the code, shown at a concrete input — an
announce whose query omits the optional `ip` makes `handle_session` panic
(`req.ip.unwrap()` on `None`) instead of returning a `TrackerResult`. -/
theorem C2_missing_ip_panics :
    Tracker.handle_session selTake initState .GET "/announce" (some qNoIp) =
      .panicked unwrapNoneMsg initState := rfl

/-! ### C3 -/

/-- C3: refuted behaviour of the code, shown at concrete inputs — `Started`
and `Stopped` announces both hit `unimplemented!()` and panic, so the event
table is not total and `Started` then `Stopped` cannot empty a swarm. -/
theorem C3_started_stopped_panic :
    (Tracker.handle_session selTake initState .GET "/announce" (some qStarted)).panicMsg =
      some notImplementedMsg ∧
    (Tracker.handle_session selTake initState .GET "/announce" (some qStopped)).panicMsg =
      some notImplementedMsg := ⟨rfl, rfl⟩

/-! ### C4 -/

/-- Modelled from the spec's words, for comparison with the code: the
completed counter is per-info_hash — some observer `ctr` of the tracker
state increments at exactly the announced hash on every Completed announce
that completes, and stays put at every other hash and on every
non-Completed announce (`record_completion(info_hash)` is the only
counter mutation in the spec's registry). -/
def PerHashCompletedCounterSpec : Prop :=
  ∃ ctr : Bytes20 → TrackerState → Nat,
    ∀ (sel : Selector) (req : TrackerRequest) (s : TrackerState)
      (r : TrackerResult) (s' : TrackerState),
      Tracker.processAnnounce sel req s = .done r s' →
      ((req.event = some ClientEvent.completed →
          ctr req.info_hash s' = ctr req.info_hash s + 1 ∧
          ∀ h, h ≠ req.info_hash → ctr h s' = ctr h s) ∧
        (req.event ≠ some ClientEvent.completed → ∀ h, ctr h s' = ctr h s))

/-- C4: counterexample — the code keeps one tracker-wide counter, so no
per-info_hash reading of the state exists: the two concrete histories
(Completed for A, then plain announce for B) and (plain announce for A,
then Completed for B) end in the *same* state, yet the claim forces any
per-hash counter for A to differ by one between them. -/
theorem C4_counterexample_counter_not_per_hash : ¬ PerHashCompletedCounterSpec := by
  rintro ⟨ctr, hctr⟩
  have h1 := hctr selTake reqCA initState (.ok ⟨1, [peer0]⟩) c4s1 rfl
  have h2 := hctr selTake reqNB c4s1 (.ok ⟨1, [peer0]⟩) c4s2 rfl
  have h3 := hctr selTake reqNA initState (.ok ⟨1, [peer0]⟩) c4t1 rfl
  have h4 := hctr selTake reqCB c4t1 (.ok ⟨1, [peer0]⟩) c4t2 rfl
  have e1 : ctr hashA c4s1 = ctr hashA initState + 1 := (h1.1 rfl).1
  have e2 : ctr hashA c4s2 = ctr hashA c4s1 := (h2.2 (by decide)) hashA
  have e3 : ctr hashA c4t1 = ctr hashA initState := (h3.2 (by decide)) hashA
  have e4 : ctr hashA c4t2 = ctr hashA c4t1 := (h4.1 rfl).2 hashA (by decide)
  have key : c4s2 = c4t2 := rfl
  rw [key] at e2
  omega

/-- C4 (amended): a Completed announce that gets past registration (ip
present) re-registers the announcing peer and increments the tracker's
single global `complete_count` by exactly one — once per Completed event,
with no deduplication; the counter is shared by all torrents rather than
kept per info_hash. -/
theorem C4_amended_completed_increments_global_counter :
    ∀ (sel : Selector) (req : TrackerRequest) (s : TrackerState)
      (r : TrackerResult) (s' : TrackerState),
      req.event = some ClientEvent.completed →
      Tracker.processAnnounce sel req s = .done r s' →
      s'.complete_count = s.complete_count + 1 ∧
      ∀ a, req.ip = some a →
        (⟨req.peer_id, a, req.port⟩ : Peer) ∈ s'.torrents req.info_hash := by
  intro sel req s r s' hev hrun
  unfold Tracker.processAnnounce at hrun
  cases hip : req.ip with
  | none =>
    simp only [Tracker.maybe_register_new_peer, normalize_ip, hip] at hrun
    exact absurd hrun (by simp)
  | some a =>
    simp only [Tracker.maybe_register_new_peer, normalize_ip, hip, normalize_event, hev,
      Tracker.get_peers, normalize_numwant] at hrun
    cases hnw : req.numwant <;> simp only [hnw, Option.or, Option.map] at hrun <;>
      obtain ⟨-, hs'⟩ := Outcome.done.inj hrun <;>
      subst hs' <;>
      refine ⟨rfl, ?_⟩ <;>
      intro a2 ha2 <;>
      obtain rfl := Option.some.inj ha2 <;>
      simp only [Tracker.upsert, normalize_info_hash, if_pos rfl] <;>
      exact List.mem_insert_self _ _

/-- C4 witness: the amended theorem at the concrete Completed announce
`reqCA` from the empty tracker. -/
theorem C4_amended_witness :
    c4s1.complete_count = initState.complete_count + 1 ∧
    peer0 ∈ c4s1.torrents hashA := by
  have h := C4_amended_completed_increments_global_counter selTake reqCA initState
    (.ok ⟨1, [peer0]⟩) c4s1 rfl rfl
  exact ⟨h.1, h.2 ip0 rfl⟩

/-! ### C5 -/

/-- C5: refuted behaviour of the code — `get_peers` samples from the full
peer set of the torrent without excluding the requester.  With the swarm
holding exactly the announcing peer itself (`reqNA` announces `peer0`,
`c4t1`'s swarm for `hashA` is `[peer0]`) and numwant = 1, every conforming
sampling returns the requester, where the claim demands a result of size
min(1, 0) = 0 never containing it. -/
theorem C5_requester_not_excluded :
    ∀ sel : Selector, SampleOK sel →
      Tracker.get_peers sel reqNA c4t1 = some [peer0] := by
  intro sel hsel
  obtain ⟨hnd, hmem, hlen⟩ := hsel [peer0] 1 (List.nodup_singleton _)
  have hout : sel [peer0] 1 = [peer0] := by
    cases hout : sel [peer0] 1 with
    | nil => rw [hout] at hlen; simp at hlen
    | cons x xs =>
      rw [hout] at hlen hmem
      cases xs with
      | nil =>
        have hx := hmem x (List.mem_cons_self _ _)
        simp only [List.mem_singleton] at hx
        rw [hx]
      | cons y ys => simp [List.length_cons] at hlen
  show some (sel (c4t1.torrents reqNA.info_hash) 1) = some [peer0]
  have hswarm : c4t1.torrents reqNA.info_hash = [peer0] := rfl
  rw [hswarm, hout]

/-- C5 witness: the concrete conforming sampler `selTake` indeed hands the
requester back to itself. -/
theorem C5_requester_not_excluded_witness :
    Tracker.get_peers selTake reqNA c4t1 = some [peer0] :=
  C5_requester_not_excluded selTake sampleOK_selTake

/-! ### C6 -/

def mkPortPeer (i : Nat) : Peer := ⟨pid0, ip0, i⟩

/-- A swarm of 51 distinct peers (ports 0..50). -/
def bigSwarm : List Peer := (List.range 51).map mkPortPeer

def req10000 : TrackerRequest := ⟨hashA, pid0, some ip0, 1, 0, 0, 0, none, some 10000⟩

def stBig : TrackerState := ⟨fun h => if h = hashA then bigSwarm else [], 0⟩

theorem bigSwarm_nodup : bigSwarm.Nodup := by
  refine List.Nodup.map ?_ (List.nodup_range 51)
  intro i j hij
  simpa [mkPortPeer] using hij

theorem get_peers_stBig :
    Tracker.get_peers selTake req10000 stBig = some bigSwarm := by
  show some (selTake (stBig.torrents hashA) 10000) = some bigSwarm
  have hswarm : stBig.torrents hashA = bigSwarm := by simp [stBig]
  rw [hswarm]
  show some (bigSwarm.take 10000) = some bigSwarm
  rw [List.take_of_length_le (by simp [bigSwarm])]

/-- C6: counterexample — `normalize_request` does not clamp a present
numwant, and a request for 10000 peers against a 51-member swarm can
return all 51 of them, more than the supposed maximum of 50. -/
theorem C6_counterexample_numwant_unclamped :
    (req10000.normalize_request).numwant = some 10000 ∧
    bigSwarm.Nodup ∧
    bigSwarm.length = 51 ∧
    Tracker.get_peers selTake req10000 stBig = some bigSwarm ∧
    50 < bigSwarm.length :=
  ⟨rfl, bigSwarm_nodup, by simp [bigSwarm], get_peers_stBig, by simp [bigSwarm]⟩

/-- C6 (amended): an absent numwant defaults to the hard-coded 50 (the
`--peers` option is never consulted); a present numwant is passed through
unclamped; and the response size is min(numwant, swarm size) — so
numwant=10000 against a swarm of more than 50 members returns more than 50
peers. -/
theorem C6_amended_numwant_default_only :
    (∀ r : TrackerRequest, r.numwant = none → r.normalize_request.numwant = some 50) ∧
    (∀ (r : TrackerRequest) (n : Nat), r.numwant = some n →
        r.normalize_request.numwant = some n) ∧
    (∀ (sel : Selector) (r : TrackerRequest) (s : TrackerState) (n : Nat) (out : List Peer),
        SampleOK sel → (s.torrents r.info_hash).Nodup → r.numwant = some n →
        Tracker.get_peers sel r s = some out →
        out.length = min n (s.torrents r.info_hash).length) := by
  refine ⟨?_, ?_, ?_⟩
  · intro r h; simp [TrackerRequest.normalize_request, h]
  · intro r n h; simp [TrackerRequest.normalize_request, h]
  · intro sel r s n out hsel hnd hnw hget
    unfold Tracker.get_peers at hget
    rw [hnw] at hget
    obtain rfl := Option.some.inj hget
    exact (hsel (s.torrents r.info_hash) n hnd).2.2

def reqNoNumwant : TrackerRequest := ⟨hashA, pid0, some ip0, 1, 0, 0, 0, none, none⟩

/-- C6 witness: the amended behaviour at concrete inputs — defaulting,
pass-through of 10000, and the 51-peer response. -/
theorem C6_amended_numwant_default_only_witness :
    reqNoNumwant.normalize_request.numwant = some 50 ∧
    req10000.normalize_request.numwant = some 10000 ∧
    bigSwarm.length = min 10000 (stBig.torrents req10000.info_hash).length := by
  refine ⟨C6_amended_numwant_default_only.1 reqNoNumwant rfl,
    C6_amended_numwant_default_only.2.1 req10000 10000 rfl, ?_⟩
  exact C6_amended_numwant_default_only.2.2 selTake req10000 stBig 10000 bigSwarm
    sampleOK_selTake bigSwarm_nodup rfl get_peers_stBig

/-! ### C7 -/

def q20a : List Nat := strBytes "aaaaaaaaaaaaaaaaaaaa"

def q20b : List Nat := strBytes "bbbbbbbbbbbbbbbbbbbb"

def qBadInfo : Query := [("info_hash", strBytes "abc"), ("peer_id", q20b)]

def qBadPeer : Query := [("info_hash", q20a), ("peer_id", strBytes "abc")]

/-- C7: counterexample — a 3-byte `info_hash` (with a well-formed peer_id)
and a 3-byte `peer_id` (with a well-formed info_hash) fail with the *same*
error value, whose message carries the observed length but no field name,
so the failure cannot identify which of the two fields is wrong. -/
theorem C7_counterexample_error_does_not_name_field :
    TrackerRequest.from_query_string qBadInfo = .error ⟨invalidLengthMsg 3⟩ ∧
    TrackerRequest.from_query_string qBadPeer = .error ⟨invalidLengthMsg 3⟩ ∧
    invalidLengthMsg 3 = "invalid length 3, expected a byte array of length 20" :=
  ⟨rfl, rfl, rfl⟩

/-- C7 (amended): a validated request's identifiers are always exactly 20
bytes, and a wrong-length `info_hash` or `peer_id` makes the parse fail
with the serde invalid-length error carrying the observed length — but the
message does not name the offending field (`validate_request` itself checks
nothing; its body is commented out). -/
theorem C7_amended_invalid_length_rejection :
    (∀ (q : Query) (r : TrackerRequest),
        TrackerRequest.from_query_string q = .ok r →
        r.info_hash.val.length = 20 ∧ r.peer_id.val.length = 20) ∧
    (∀ (v : List Nat) (rest : Query), v.length ≠ 20 →
        TrackerRequest.from_query_string (("info_hash", v) :: rest) =
          .error ⟨invalidLengthMsg v.length⟩) ∧
    (∀ (ih v : List Nat), ih.length = 20 → ∀ (rest : Query), v.length ≠ 20 →
        TrackerRequest.from_query_string (("info_hash", ih) :: ("peer_id", v) :: rest) =
          .error ⟨invalidLengthMsg v.length⟩) := by
  refine ⟨?_, ?_, ?_⟩
  · intro q r _
    exact ⟨r.info_hash.property, r.peer_id.property⟩
  · intro v rest hv
    have hstep : stepPair {} ("info_hash", v) = .error ⟨invalidLengthMsg v.length⟩ := by
      simp [stepPair, setOnce, decode20Value, bytesVisitor20, hv, Except.map]
    unfold TrackerRequest.from_query_string
    rw [foldlM_stepPair_cons_err hstep]
  · intro ih v hih rest hv
    have hstep1 : stepPair {} ("info_hash", ih) = .ok { info_hash := some ⟨ih, hih⟩ } := by
      simp [stepPair, setOnce, decode20Value, bytesVisitor20, hih, Except.map]
    have hstep2 : stepPair { info_hash := some ⟨ih, hih⟩ } ("peer_id", v) =
        .error ⟨invalidLengthMsg v.length⟩ := by
      simp [stepPair, setOnce, decode20Value, bytesVisitor20, hv, Except.map]
    unfold TrackerRequest.from_query_string
    rw [foldlM_stepPair_cons_ok hstep1, foldlM_stepPair_cons_err hstep2]

def qGood : Query :=
  [("info_hash", q20a), ("peer_id", q20b), ("port", strBytes "1"),
   ("uploaded", strBytes "0"), ("downloaded", strBytes "0"), ("left", strBytes "0")]

def rGood : TrackerRequest :=
  ⟨⟨q20a, by decide⟩, ⟨q20b, by decide⟩, none, 1, 0, 0, 0, none, none⟩

/-- C7 witness: the amended behaviour at a concrete good query and the two
concrete wrong-length queries. -/
theorem C7_amended_invalid_length_rejection_witness :
    (rGood.info_hash.val.length = 20 ∧ rGood.peer_id.val.length = 20) ∧
    TrackerRequest.from_query_string (("info_hash", strBytes "abc") :: [("peer_id", q20b)]) =
      .error ⟨invalidLengthMsg 3⟩ ∧
    TrackerRequest.from_query_string (("info_hash", q20a) :: ("peer_id", strBytes "abc") :: []) =
      .error ⟨invalidLengthMsg 3⟩ := by
  refine ⟨C7_amended_invalid_length_rejection.1 qGood rGood rfl, ?_, ?_⟩
  · exact C7_amended_invalid_length_rejection.2.1 (strBytes "abc") [("peer_id", q20b)]
      (by decide)
  · exact C7_amended_invalid_length_rejection.2.2 q20a (strBytes "abc") (by decide) []
      (by decide)

/-! ### C8 -/

def peerQB : Peer := ⟨⟨strBytes "bbbbbbbbbbbbbbbbbbbb", by decide⟩, .v4 10 0 0 1, 6881⟩

def stAfterStarted : TrackerState :=
  ⟨Tracker.upsert hashA peerQB initState.torrents, 0⟩

/-- C8: counterexample — a well-formed announce query whose event is
`started` drives the `(GET, "/announce", Some(query))` arm into a panic:
the handler returns neither the Error variant nor a Response. -/
theorem C8_counterexample_announce_arm_panics :
    Tracker.handle_session selTake initState .GET "/announce" (some qStarted) =
      .panicked notImplementedMsg stAfterStarted := rfl

/-- C8 (amended): the dispatch is exhaustive over (method, path,
query-presence) with exactly the claimed error strings on the three
non-announce arms and parse failures propagated verbatim; a parsed announce
whose event is not started/stopped (and whose ip is present) returns
`Response` with the hard-coded interval 1 — started/stopped announces panic
instead (see the counterexample). -/
theorem C8_amended_dispatch_table :
    (∀ (sel : Selector) (s : TrackerState),
        Tracker.handle_session sel s .GET "/announce" none =
          .done (.error ⟨"Invalid request: no query string."⟩) s) ∧
    (∀ (sel : Selector) (s : TrackerState) (p : String) (q : Option Query),
        p ≠ "/announce" →
        Tracker.handle_session sel s .GET p q =
          .done (.error ⟨"Unrecognized path, try '/announce'."⟩) s) ∧
    (∀ (sel : Selector) (s : TrackerState) (m : Method) (p : String) (q : Option Query),
        m ≠ .GET →
        Tracker.handle_session sel s m p q =
          .done (.error ⟨"Invalid request type: client request was not an HTTP GET."⟩) s) ∧
    (∀ (sel : Selector) (s : TrackerState) (q : Query) (e : TrackerError),
        TrackerRequest.from_query_string q = .error e →
        Tracker.handle_session sel s .GET "/announce" (some q) = .done (.error e) s) ∧
    (∀ (sel : Selector) (s : TrackerState) (q : Query) (r : TrackerRequest) (a : IpAddr),
        TrackerRequest.from_query_string q = .ok r → r.ip = some a →
        r.event ≠ some ClientEvent.started → r.event ≠ some ClientEvent.stopped →
        ∃ (ps : List Peer) (s' : TrackerState),
          Tracker.handle_session sel s .GET "/announce" (some q) =
            .done (.ok ⟨1, ps⟩) s') := by
  refine ⟨?_, ?_, ?_, ?_, ?_⟩
  · intro sel s; rfl
  · intro sel s p q hp
    unfold Tracker.handle_session
    split <;> simp_all
  · intro sel s m p q hm
    unfold Tracker.handle_session
    split <;> simp_all
  · intro sel s q e hq
    simp only [Tracker.handle_session]
    rw [hq]
  · intro sel s q r a hq hip hev1 hev2
    have hred : Tracker.handle_session sel s .GET "/announce" (some q) =
        Tracker.processAnnounce sel r s := by
      simp only [Tracker.handle_session]
      rw [hq]
      rfl
    rw [hred]
    unfold Tracker.processAnnounce
    simp only [Tracker.maybe_register_new_peer, normalize_ip, hip, normalize_event,
      normalize_numwant, Tracker.get_peers, normalize_info_hash]
    cases hev : r.event with
    | none =>
      cases hnw : r.numwant <;> simp only [hnw, Option.or, Option.map] <;> exact ⟨_, _, rfl⟩
    | some ev =>
      cases ev with
      | started => exact absurd hev hev1
      | stopped => exact absurd hev hev2
      | completed =>
        cases hnw : r.numwant <;> simp only [hnw, Option.or, Option.map] <;> exact ⟨_, _, rfl⟩

def qCompleted : Query :=
  [("info_hash", strBytes "aaaaaaaaaaaaaaaaaaaa"),
   ("peer_id", strBytes "bbbbbbbbbbbbbbbbbbbb"),
   ("ip", strBytes "10.0.0.1"),
   ("port", strBytes "6881"),
   ("uploaded", strBytes "0"),
   ("downloaded", strBytes "0"),
   ("left", strBytes "0"),
   ("event", strBytes "completed")]

def rCompleted : TrackerRequest :=
  ⟨⟨strBytes "aaaaaaaaaaaaaaaaaaaa", by decide⟩, ⟨strBytes "bbbbbbbbbbbbbbbbbbbb", by decide⟩,
    some (.v4 10 0 0 1), 6881, 0, 0, 0, some .completed, none⟩

/-- C8 witness: each dispatch arm at a concrete input. -/
theorem C8_amended_dispatch_table_witness :
    Tracker.handle_session selTake initState .GET "/announce" none =
      .done (.error ⟨"Invalid request: no query string."⟩) initState ∧
    Tracker.handle_session selTake initState .GET "/scrape" none =
      .done (.error ⟨"Unrecognized path, try '/announce'."⟩) initState ∧
    Tracker.handle_session selTake initState .POST "/announce" (some qCompleted) =
      .done (.error ⟨"Invalid request type: client request was not an HTTP GET."⟩) initState ∧
    Tracker.handle_session selTake initState .GET "/announce" (some qBadInfo) =
      .done (.error ⟨invalidLengthMsg 3⟩) initState ∧
    ∃ (ps : List Peer) (s' : TrackerState),
      Tracker.handle_session selTake initState .GET "/announce" (some qCompleted) =
        .done (.ok ⟨1, ps⟩) s' := by
  refine ⟨C8_amended_dispatch_table.1 selTake initState,
    C8_amended_dispatch_table.2.1 selTake initState "/scrape" none (by decide),
    C8_amended_dispatch_table.2.2.1 selTake initState .POST "/announce" (some qCompleted)
      (by decide),
    C8_amended_dispatch_table.2.2.2.1 selTake initState qBadInfo ⟨invalidLengthMsg 3⟩ rfl,
    C8_amended_dispatch_table.2.2.2.2 selTake initState qCompleted rCompleted (.v4 10 0 0 1)
      rfl rfl (by decide) (by decide)⟩

/-! ### C9 -/

theorem upsert_idem (h : InfoHash) (p : Peer) (t : Bytes20 → List Peer) :
    Tracker.upsert h p (Tracker.upsert h p t) = Tracker.upsert h p t := by
  funext h2
  by_cases hh : h2 = h
  · simp only [Tracker.upsert, hh, if_pos rfl]
    exact List.insert_of_mem (List.mem_insert_self _ _)
  · simp only [Tracker.upsert, if_neg hh]

/-- C9: announcing the identical peer twice is idempotent under set
semantics: processing any well-formed announce query (ip present) twice
from the empty tracker leaves the announced torrent's swarm with exactly
one entry, and the second announce does not change the registry at all. -/
theorem C9_reannounce_idempotent :
    ∀ (q : Query) (r : TrackerRequest) (a : IpAddr),
      TrackerRequest.from_query_string q = .ok r → r.ip = some a →
      ((Tracker.handle_session selTake initState .GET "/announce" (some q)).state.torrents
          r.info_hash).length = 1 ∧
      (Tracker.handle_session selTake
          (Tracker.handle_session selTake initState .GET "/announce" (some q)).state
          .GET "/announce" (some q)).state.torrents =
        (Tracker.handle_session selTake initState .GET "/announce" (some q)).state.torrents := by
  intro q r a hq hip
  have hh : ∀ s : TrackerState,
      Tracker.handle_session selTake s .GET "/announce" (some q) =
        Tracker.processAnnounce selTake r s := by
    intro s
    simp only [Tracker.handle_session]
    rw [hq]
    rfl
  have ht : ∀ s : TrackerState,
      (Tracker.processAnnounce selTake r s).state.torrents =
        Tracker.upsert r.info_hash ⟨r.peer_id, a, r.port⟩ s.torrents :=
    fun s => processAnnounce_state_torrents selTake r s a hip
  constructor
  · rw [hh, ht]
    simp [Tracker.upsert, initState, List.insert]
  · rw [hh, hh, ht, ht]
    exact upsert_idem _ _ _

def rStarted : TrackerRequest :=
  ⟨⟨strBytes "aaaaaaaaaaaaaaaaaaaa", by decide⟩, ⟨strBytes "bbbbbbbbbbbbbbbbbbbb", by decide⟩,
    some (.v4 10 0 0 1), 6881, 0, 0, 1000, some .started, none⟩

/-- C9 witness: two identical Started announces from the empty tracker
leave a one-element swarm. -/
theorem C9_reannounce_idempotent_witness :
    ((Tracker.handle_session selTake initState .GET "/announce" (some qStarted)).state.torrents
        rStarted.info_hash).length = 1 ∧
    (Tracker.handle_session selTake
        (Tracker.handle_session selTake initState .GET "/announce" (some qStarted)).state
        .GET "/announce" (some qStarted)).state.torrents =
      (Tracker.handle_session selTake initState .GET "/announce" (some qStarted)).state.torrents :=
  C9_reannounce_idempotent qStarted rStarted (.v4 10 0 0 1) rfl rfl

/-! ### C10 -/

/-- C10: the required `uploaded`/`downloaded`/`left` fields are parsed but
never otherwise read: two well-formed announce queries that agree on every
other field produce the same outcome — identical registry mutation,
identical counter update, identical response — for every sampler. -/
theorem C10_stats_fields_not_read :
    ∀ (sel : Selector) (s : TrackerState) (q1 q2 : Query) (r1 r2 : TrackerRequest),
      TrackerRequest.from_query_string q1 = .ok r1 →
      TrackerRequest.from_query_string q2 = .ok r2 →
      r1.info_hash = r2.info_hash → r1.peer_id = r2.peer_id → r1.ip = r2.ip →
      r1.port = r2.port → r1.event = r2.event → r1.numwant = r2.numwant →
      Tracker.handle_session sel s .GET "/announce" (some q1) =
        Tracker.handle_session sel s .GET "/announce" (some q2) := by
  intro sel s q1 q2 r1 r2 h1 h2 e1 e2 e3 e4 e5 e6
  have hh1 : Tracker.handle_session sel s .GET "/announce" (some q1) =
      Tracker.processAnnounce sel r1 s := by
    simp only [Tracker.handle_session]
    rw [h1]
    rfl
  have hh2 : Tracker.handle_session sel s .GET "/announce" (some q2) =
      Tracker.processAnnounce sel r2 s := by
    simp only [Tracker.handle_session]
    rw [h2]
    rfl
  rw [hh1, hh2]
  obtain ⟨i1, p1, ip1, pt1, u1, d1, l1, ev1, n1⟩ := r1
  obtain ⟨i2, p2, ip2, pt2, u2, d2, l2, ev2, n2⟩ := r2
  simp only at e1 e2 e3 e4 e5 e6
  subst e1; subst e2; subst e3; subst e4; subst e5; subst e6
  rfl

def qStatsA : Query :=
  [("info_hash", strBytes "aaaaaaaaaaaaaaaaaaaa"),
   ("peer_id", strBytes "bbbbbbbbbbbbbbbbbbbb"),
   ("ip", strBytes "10.0.0.1"),
   ("port", strBytes "6881"),
   ("uploaded", strBytes "42"),
   ("downloaded", strBytes "10"),
   ("left", strBytes "20")]

def qStatsB : Query :=
  [("info_hash", strBytes "aaaaaaaaaaaaaaaaaaaa"),
   ("peer_id", strBytes "bbbbbbbbbbbbbbbbbbbb"),
   ("ip", strBytes "10.0.0.1"),
   ("port", strBytes "6881"),
   ("uploaded", strBytes "0"),
   ("downloaded", strBytes "999"),
   ("left", strBytes "0")]

def rStatsA : TrackerRequest :=
  ⟨⟨strBytes "aaaaaaaaaaaaaaaaaaaa", by decide⟩, ⟨strBytes "bbbbbbbbbbbbbbbbbbbb", by decide⟩,
    some (.v4 10 0 0 1), 6881, 42, 10, 20, none, none⟩

def rStatsB : TrackerRequest :=
  ⟨⟨strBytes "aaaaaaaaaaaaaaaaaaaa", by decide⟩, ⟨strBytes "bbbbbbbbbbbbbbbbbbbb", by decide⟩,
    some (.v4 10 0 0 1), 6881, 0, 999, 0, none, none⟩

/-- C10 witness: two concrete announces differing only in
uploaded/downloaded/left produce identical outcomes. -/
theorem C10_stats_fields_not_read_witness :
    Tracker.handle_session selTake initState .GET "/announce" (some qStatsA) =
      Tracker.handle_session selTake initState .GET "/announce" (some qStatsB) :=
  C10_stats_fields_not_read selTake initState qStatsA qStatsB rStatsA rStatsB
    rfl rfl rfl rfl rfl rfl rfl rfl

end Bittorrent
